import Mathlib

/-!
Verification of the pygrowup_cdc_calculator growth-percentile engine.

The development shallowly embeds the two core Python modules:

- `pygrowup_cdc_calculator/cdc_growth_calculator.py`: the CDC LMS engine
  (`CDCGrowthCalculator` with `_get_lms_parameters`,
  `calculate_growth_percentile`, `calculate_value_for_percentile`).
- `medical_growth_calculator.py`: the WHO/CDC standard selector
  (`MedicalGrowthCalculator.calculate_z_score`, `_normalize_sex_input`,
  `_calculate_who_z_score`, `_calculate_cdc_z_score`).

Modelling conventions:

- Python floats are modelled as real numbers.  Reference tables (loaded from
  CSV by plumbing that is out of scope) are modelled as lists of rows, one
  list per metric; a pandas DataFrame filtered by sex keeps row order, and
  `Series.abs().idxmin()` returns the first index attaining the minimum, which
  `nearestRow` reproduces.
- `scipy.stats.norm` is an external collaborator; its `cdf` and `ppf` are
  abstracted as the two fields of `NormalDist`.  Note that `norm.ppf` is a
  total function at the Python level: outside (0, 1) it returns nan or
  plus/minus infinity instead of raising, so no failure can originate from it.
- Fallible Python arithmetic is modelled with `Option`: `pyDiv` is float
  division (ZeroDivisionError at 0), `pyLog` is `math.log` (ValueError at
  nonpositive arguments), and `pyPow` is float `**`, which raises for
  `0.0 ** negative` and produces a complex number for a negative base and
  non-integral exponent; in the source such a complex value makes the
  subsequent `norm.cdf`/`round` call raise TypeError, which the surrounding
  `try/except` of each calculator method converts to `None`.  `pyPow` folds
  that downstream failure into the power itself.
- `round(x, 2)` is modelled by `round2`, rounding to the nearest multiple of
  1/100 (tie behaviour is irrelevant to every statement below).
- Python's `str.lower` and `str.strip` are modelled by `pyLower`/`pyStrip`.
-/

/-- Python `str.lower()` restricted to its per-character (ASCII) action. -/
def pyLower (s : String) : String := String.mk (s.data.map Char.toLower)

/-- Whitespace characters removed by Python `str.strip()`. -/
def isPySpace (c : Char) : Bool :=
  c = ' ' || c = '\t' || c = '\n' || c = '\r' || c = '\x0b' || c = '\x0c'

/-- Python `str.strip()`: drop leading and trailing whitespace. -/
def pyStrip (s : String) : String :=
  String.mk (((s.data.dropWhile isPySpace).reverse.dropWhile isPySpace).reverse)

/-- Python `round(x, 2)`: round to the nearest multiple of 1/100. -/
noncomputable def round2 (x : ℝ) : ℝ := ((round (x * 100) : ℤ) : ℝ) / 100

/-- Python float division: `ZeroDivisionError` when the divisor is zero. -/
noncomputable def pyDiv (a b : ℝ) : Option ℝ := if b = 0 then none else some (a / b)

/-- Python `math.log`: `ValueError` on nonpositive arguments. -/
noncomputable def pyLog (x : ℝ) : Option ℝ := if x ≤ 0 then none else some (Real.log x)

/-- Python float `**`.  A negative base with a non-integral exponent yields a
complex number, which makes the downstream `norm.cdf`/`round` call of the
calculator raise TypeError (folded into the power here); `0.0 ** y` with
`y < 0` raises ZeroDivisionError.  All remaining cases agree with `Real.rpow`
(for a negative base and integral exponent, `Real.rpow` equals the integer
power, as does Python). -/
noncomputable def pyPow (x y : ℝ) : Option ℝ :=
  if x < 0 ∧ Int.fract y ≠ 0 then none
  else if x = 0 ∧ y < 0 then none
  else some (x ^ y)

/-- The `cdf` and `ppf` of `scipy.stats.norm`, abstracted (the library is an
external collaborator; both functions are total and never raise). -/
structure NormalDist where
  cdf : ℝ → ℝ
  ppf : ℝ → ℝ

/-- Sex enumeration of `cdc_growth_calculator.py` (CDC coding). -/
inductive Sex where
  | MALE
  | FEMALE
deriving DecidableEq

/-- CDC coding of `Sex`: `MALE = 1`, `FEMALE = 2`. -/
def Sex.value : Sex → ℕ
  | Sex.MALE => 1
  | Sex.FEMALE => 2

/-- The `GrowthMetric` enumeration of `cdc_growth_calculator.py`. -/
inductive GrowthMetric where
  | WEIGHT_FOR_AGE
  | STATURE_FOR_AGE
  | WEIGHT_FOR_STATURE
  | BMI_FOR_AGE
  | HEAD_CIRCUMFERENCE
deriving DecidableEq

/-- The string value of each `GrowthMetric` enum member. -/
def GrowthMetric.value : GrowthMetric → String
  | GrowthMetric.WEIGHT_FOR_AGE => "weight_for_age"
  | GrowthMetric.STATURE_FOR_AGE => "stature_for_age"
  | GrowthMetric.WEIGHT_FOR_STATURE => "weight_for_stature"
  | GrowthMetric.BMI_FOR_AGE => "bmi_for_age"
  | GrowthMetric.HEAD_CIRCUMFERENCE => "head_circumference"

/-- One row of a loaded CDC reference table: the `Sex`, `Agemos`, `L`, `M`,
`S` columns after `_load_growth_data` coerced them to numbers (for
weight-for-stature the `Height` column is renamed to `Agemos`). -/
structure DataRow where
  sex : ℕ
  agemos : ℝ
  L : ℝ
  M : ℝ
  S : ℝ

/-- The `GrowthResult` dataclass of `cdc_growth_calculator.py`. -/
structure GrowthResult where
  percentile : ℝ
  z_score : ℝ
  reference_value : ℝ
  metric : String
  age_months : Option ℝ
  height_cm : Option ℝ

/-- `CDCGrowthCalculator` after `_load_growth_data`: one (possibly empty) row
list per metric; a metric whose CSV failed to load has the empty list. -/
structure CDCGrowthCalculator where
  data : GrowthMetric → List DataRow

/-- pandas `(series - coord).abs().idxmin()` followed by `.loc`: the first row
(in table order) whose `Agemos` has minimum absolute distance to the query. -/
noncomputable def nearestRow : List DataRow → ℝ → Option DataRow
  | [], _ => none
  | row :: rest, q =>
    match nearestRow rest q with
    | none => some row
    | some b => if |b.agemos - q| < |row.agemos - q| then some b else some row

/-- `CDCGrowthCalculator._get_lms_parameters`.  For weight-for-stature the
lookup coordinate is `height_cm` (missing coordinate is an explicit `None`);
for all other metrics it is `age_months` (a missing age makes the pandas
subtraction raise TypeError, which the callers' `try/except` turns into
`None`; that net effect is modelled here). -/
noncomputable def CDCGrowthCalculator.get_lms_parameters
    (c : CDCGrowthCalculator) (metric : GrowthMetric) (sex : Sex)
    (age_months : Option ℝ) (height_cm : Option ℝ) : Option (ℝ × ℝ × ℝ) :=
  if (c.data metric).isEmpty then none
  else
    let sex_data := (c.data metric).filter fun r => r.sex == sex.value
    if sex_data.isEmpty then none
    else
      match metric with
      | GrowthMetric.WEIGHT_FOR_STATURE =>
        match height_cm with
        | none => none
        | some coord => (nearestRow sex_data coord).map fun row => (row.L, row.M, row.S)
      | _ =>
        match age_months with
        | none => none
        | some coord => (nearestRow sex_data coord).map fun row => (row.L, row.M, row.S)

/-- The lookup coordinate of `_get_lms_parameters`: `height_cm` for
weight-for-stature, `age_months` for every other metric. -/
def query_coord : GrowthMetric → Option ℝ → Option ℝ → Option ℝ
  | GrowthMetric.WEIGHT_FOR_STATURE, _, height_cm => height_cm
  | _, age_months, _ => age_months

/-- Lines 169-172 of `calculate_growth_percentile`: the LMS forward transform
with Python's failure behaviour (`Option` collects every exception the
surrounding `try/except` would swallow). -/
noncomputable def lms_z_score (L M S value : ℝ) : Option ℝ :=
  if L ≠ 0 then
    match pyDiv value M with
    | none => none
    | some ratio =>
      match pyPow ratio L with
      | none => none
      | some p => pyDiv (p - 1) (L * S)
  else
    match pyDiv value M with
    | none => none
    | some ratio =>
      match pyLog ratio with
      | none => none
      | some lg => pyDiv lg S

/-- The real-valued LMS z-score formula: `((value/M)^L - 1)/(L*S)` for
`L ≠ 0` and `ln(value/M)/S` for `L = 0`. -/
noncomputable def z_formula (L M S value : ℝ) : ℝ :=
  if L ≠ 0 then ((value / M) ^ L - 1) / (L * S) else Real.log (value / M) / S

/-- `CDCGrowthCalculator.calculate_growth_percentile`. -/
noncomputable def CDCGrowthCalculator.calculate_growth_percentile
    (c : CDCGrowthCalculator) (nd : NormalDist) (metric : GrowthMetric) (sex : Sex)
    (value : ℝ) (age_months : Option ℝ) (height_cm : Option ℝ) : Option GrowthResult :=
  match c.get_lms_parameters metric sex age_months height_cm with
  | none => none
  | some (L, M, S) =>
    match lms_z_score L M S value with
    | none => none
    | some z =>
      some ⟨round2 (nd.cdf z * 100), round2 z, M, metric.value, age_months, height_cm⟩

/-- `CDCGrowthCalculator.calculate_value_for_percentile`.  There is no range
check on `percentile`; `norm.ppf` is total (nan or infinite outside (0,1))
and the only failure points after the lookup are the exceptions of the
power computation. -/
noncomputable def CDCGrowthCalculator.calculate_value_for_percentile
    (c : CDCGrowthCalculator) (nd : NormalDist) (metric : GrowthMetric) (sex : Sex)
    (percentile : ℝ) (age_months : Option ℝ) (height_cm : Option ℝ) : Option ℝ :=
  match c.get_lms_parameters metric sex age_months height_cm with
  | none => none
  | some (L, M, S) =>
    let z_score := nd.ppf (percentile / 100)
    if L ≠ 0 then
      match pyPow (L * S * z_score + 1) (1 / L) with
      | none => none
      | some p => some (round2 (M * p))
    else some (round2 (M * Real.exp (S * z_score)))

/-- The unrounded percentile of a z-score: `norm.cdf(z) * 100`. -/
noncomputable def percentile_real (nd : NormalDist) (z : ℝ) : ℝ := nd.cdf z * 100

/-- The unrounded inverse LMS transform at a percentile:
`z = ppf(p/100)`; `M*(L*S*z + 1)^(1/L)` for `L ≠ 0`, `M*exp(S*z)` for
`L = 0` (the body of `calculate_value_for_percentile` before rounding). -/
noncomputable def value_from_percentile_real (nd : NormalDist) (L M S p : ℝ) : ℝ :=
  if L ≠ 0 then M * (L * S * nd.ppf (p / 100) + 1) ^ (1 / L)
  else M * Real.exp (S * nd.ppf (p / 100))

/-- The `ZScoreResult` dataclass of `medical_growth_calculator.py`
(`date_recorded`, an inert passthrough field, is omitted). -/
structure ZScoreResult where
  measurement_type : String
  z_score : ℝ
  percentile : ℝ
  measurement_value : ℝ
  age_months : ℝ
  sex : String
  standard : String

/-- The `GrowthStandard` enumeration of `medical_growth_calculator.py`.
It is defined in the source but never consulted by `calculate_z_score`,
which has no `standard` parameter. -/
inductive GrowthStandard where
  | WHO
  | CDC
  | AUTO
deriving DecidableEq

/-- The pygrowup `Observation` collaborator for one sex and age: each WHO
metric family is a z-score oracle that may fail (pygrowup raising is caught
by the surrounding `try/except`).  `bmi_for_age` is `none` when the
installed pygrowup lacks that attribute (the `hasattr` check). -/
structure Observation where
  weight_for_age : ℝ → Option ℝ
  length_or_height_for_age : ℝ → Option ℝ
  weight_for_length : ℝ → ℝ → Option ℝ
  head_circumference_for_age : ℝ → Option ℝ
  bmi_for_age : Option (ℝ → Option ℝ)

/-- A sex argument to `calculate_z_score`: a plain value (anything whose
`str()` is taken) or a tuple of candidate values. -/
inductive SexInput where
  | str (s : String)
  | tup (items : List String)

/-- The recognized male spellings of `_normalize_sex_input`. -/
def male_variants : List String := ["male", "m", "boy", "masculine", "1"]

/-- The recognized female spellings of `_normalize_sex_input`. -/
def female_variants : List String := ["female", "f", "girl", "feminine", "2"]

/-- The scalar branch of `_normalize_sex_input`:
`sex_str = str(sex).strip().lower()` matched against the variant lists. -/
def match_sex_str (s : String) : Option String :=
  let sex_str := pyLower (pyStrip s)
  if sex_str ∈ male_variants then some "male"
  else if sex_str ∈ female_variants then some "female"
  else none

/-- `MedicalGrowthCalculator._normalize_sex_input`.  A tuple takes its first
truthy element with nonempty `strip()`; if none qualifies the result is
`None`. -/
def normalize_sex_input : SexInput → Option String
  | SexInput.str s => match_sex_str s
  | SexInput.tup items =>
    match items.find? (fun item => !item.isEmpty && !(pyStrip item).isEmpty) with
    | none => none
    | some item => match_sex_str (pyStrip item)

/-- `MedicalGrowthCalculator`: the two availability flags, the pygrowup
`Observation` constructor (indexed by is-male and age), and the owned
`CDCGrowthCalculator` (`_cdc_calculator`, present exactly when
`cdc_available`). -/
structure MedicalGrowthCalculator where
  pygrowup_available : Bool
  cdc_available : Bool
  observation : Bool → ℝ → Observation
  cdc_calculator : CDCGrowthCalculator

/-- `MedicalGrowthCalculator._calculate_who_z_score`: dispatch the
measurement type to the pygrowup oracle, then round and wrap with
`standard="WHO"`. -/
noncomputable def MedicalGrowthCalculator.calculate_who_z_score
    (mgc : MedicalGrowthCalculator) (nd : NormalDist) (measurement_type : String)
    (value age_months : ℝ) (sex : String) (height_cm : Option ℝ) : Option ZScoreResult :=
  let obs := mgc.observation (pyLower sex == "male") age_months
  let mt := pyLower measurement_type
  let zOpt : Option ℝ :=
    if mt == "weight_for_age" || mt == "wfa" then obs.weight_for_age value
    else if mt == "height_for_age" || mt == "length_for_age" || mt == "hfa" || mt == "lfa" then
      obs.length_or_height_for_age value
    else if mt == "weight_for_height" || mt == "weight_for_length" || mt == "wfh" || mt == "wfl" then
      match height_cm with
      | none => none
      | some h => obs.weight_for_length value h
    else if mt == "head_circumference_for_age" || mt == "hcfa" then
      obs.head_circumference_for_age value
    else if mt == "bmi_for_age" || mt == "bmifa" then
      match obs.bmi_for_age with
      | none => none
      | some f => f value
    else none
  match zOpt with
  | none => none
  | some z =>
    some ⟨measurement_type, round2 z, round2 (nd.cdf z * 100), value, age_months, sex, "WHO"⟩

/-- The `cdc_metric_map` dictionary of `_calculate_cdc_z_score` (exact
lowercase names only; no abbreviations). -/
def cdc_metric_map (s : String) : Option GrowthMetric :=
  if s = "weight_for_age" then some GrowthMetric.WEIGHT_FOR_AGE
  else if s = "height_for_age" then some GrowthMetric.STATURE_FOR_AGE
  else if s = "length_for_age" then some GrowthMetric.STATURE_FOR_AGE
  else if s = "weight_for_height" then some GrowthMetric.WEIGHT_FOR_STATURE
  else if s = "weight_for_length" then some GrowthMetric.WEIGHT_FOR_STATURE
  else if s = "bmi_for_age" then some GrowthMetric.BMI_FOR_AGE
  else if s = "head_circumference_for_age" then some GrowthMetric.HEAD_CIRCUMFERENCE
  else none

/-- `MedicalGrowthCalculator._calculate_cdc_z_score`: map the measurement
type, delegate to the CDC calculator, and wrap with `standard="CDC"` (the
`not self.cdc_available or not self._cdc_calculator` guard is modelled by the
single flag). -/
noncomputable def MedicalGrowthCalculator.calculate_cdc_z_score
    (mgc : MedicalGrowthCalculator) (nd : NormalDist) (measurement_type : String)
    (value age_months : ℝ) (sex : String) (height_cm : Option ℝ) : Option ZScoreResult :=
  if mgc.cdc_available = false then none
  else
    match cdc_metric_map (pyLower measurement_type) with
    | none => none
    | some cdc_metric =>
      let cdc_sex := if pyLower sex == "male" then Sex.MALE else Sex.FEMALE
      match mgc.cdc_calculator.calculate_growth_percentile nd cdc_metric cdc_sex value
          (some age_months) height_cm with
      | none => none
      | some r =>
        some ⟨measurement_type, r.z_score, r.percentile, value, age_months, sex, "CDC"⟩

/-- `MedicalGrowthCalculator.calculate_z_score` (lines 105-125): validate,
then route by age and availability.  The function has no `standard`
parameter; routing is always the age-based AUTO rule. -/
noncomputable def MedicalGrowthCalculator.calculate_z_score
    (mgc : MedicalGrowthCalculator) (nd : NormalDist) (measurement_type : String)
    (value age_months : ℝ) (sex : SexInput) (height_cm : Option ℝ) : Option ZScoreResult :=
  match normalize_sex_input sex with
  | none => none
  | some sex_normalized =>
    if age_months < 0 then none
    else if value ≤ 0 then none
    else if age_months < 60 ∧ mgc.pygrowup_available = true then
      mgc.calculate_who_z_score nd measurement_type value age_months sex_normalized height_cm
    else if mgc.cdc_available = true then
      mgc.calculate_cdc_z_score nd measurement_type value age_months sex_normalized height_cm
    else none

/-- The standard-normal stand-in used by concrete witnesses: a constant cdf
of 1/2 and a constant ppf of 0 (the true normal has cdf 0 = 1/2 and
ppf (1/2) = 0; the failure structure of the code never depends on the
numeric values of cdf/ppf). -/
noncomputable def nd0 : NormalDist := ⟨fun _ => 1 / 2, fun _ => 0⟩

/-- A stand-in whose ppf is the constant -3 (the true normal ppf takes the
value -3 near the 0.135th percentile). -/
noncomputable def ndNeg : NormalDist := ⟨fun _ => 1 / 2, fun _ => -3⟩

/-- A one-row calculator: male, age 120, L=1, M=16, S=1 for every metric. -/
noncomputable def cdc0 : CDCGrowthCalculator := ⟨fun _ => [⟨1, 120, 1, 16, 1⟩]⟩

/-- A one-row calculator whose M has three decimal places. -/
noncomputable def cdc6 : CDCGrowthCalculator := ⟨fun _ => [⟨1, 60, 1, 16.575, 1⟩]⟩

/-- A one-row calculator with L=2 (used for nonpositive-value inputs). -/
noncomputable def cdc7 : CDCGrowthCalculator := ⟨fun _ => [⟨1, 60, 2, 16, 1⟩]⟩

/-- A one-row calculator with L=0 (log branch). -/
noncomputable def cdc8 : CDCGrowthCalculator := ⟨fun _ => [⟨1, 60, 0, 16, 1⟩]⟩

/-- A pygrowup observation stand-in whose every oracle returns z = 1. -/
noncomputable def obsConst : Observation :=
  ⟨fun _ => some 1, fun _ => some 1, fun _ _ => some 1, fun _ => some 1, some fun _ => some 1⟩

/-- A medical calculator with both standards available. -/
noncomputable def mgc0 : MedicalGrowthCalculator := ⟨true, true, fun _ _ => obsConst, cdc0⟩

/-- Helper: evaluate `round2` from integer bracketing of `x * 100 + 1/2`. -/
theorem round2_eq_of_bounds (x : ℝ) (n : ℤ) (h1 : (n : ℝ) ≤ x * 100 + 1 / 2)
    (h2 : x * 100 + 1 / 2 < n + 1) : round2 x = (n : ℝ) / 100 := by
  unfold round2
  rw [round_eq, Int.floor_eq_iff.mpr ⟨h1, h2⟩]

/-- Helper: unfolding equation of `nearestRow` on a cons cell. -/
theorem nearestRow_cons (row : DataRow) (rest : List DataRow) (q : ℝ) :
    nearestRow (row :: rest) q =
      match nearestRow rest q with
      | none => some row
      | some b => if |b.agemos - q| < |row.agemos - q| then some b else some row := rfl

/-- Helper: `nearestRow` returns the first row (in list order) whose
coordinate has minimum absolute distance to the query. -/
theorem nearestRow_spec (q : ℝ) (rows : List DataRow) (hne : rows ≠ []) :
    ∃ i : ℕ, ∃ hi : i < rows.length,
      nearestRow rows q = some (rows.get ⟨i, hi⟩) ∧
      (∀ j : ℕ, ∀ hj : j < rows.length,
        |(rows.get ⟨i, hi⟩).agemos - q| ≤ |(rows.get ⟨j, hj⟩).agemos - q|) ∧
      (∀ j : ℕ, ∀ hj : j < rows.length, j < i →
        |(rows.get ⟨i, hi⟩).agemos - q| < |(rows.get ⟨j, hj⟩).agemos - q|) := by
  induction rows with
  | nil => exact absurd rfl hne
  | cons row rest ih =>
    match hrest : rest, ih with
    | [], _ =>
      refine ⟨0, by simp, ?_, ?_, ?_⟩
      · simp [nearestRow]
      · intro j hj
        have hj0 : j = 0 := Nat.lt_one_iff.mp (by simpa using hj)
        subst hj0
        exact le_refl _
      · intro j hj hji
        omega
    | r0 :: rest0, ih =>
      obtain ⟨i, hi, hres, hmin, hfirst⟩ := ih (by simp)
      by_cases hlt : |((r0 :: rest0).get ⟨i, hi⟩).agemos - q| < |row.agemos - q|
      · refine ⟨i + 1, by simpa using Nat.succ_lt_succ hi, ?_, ?_, ?_⟩
        · rw [nearestRow_cons, hres]
          dsimp only
          rw [if_pos hlt]
          rfl
        · intro j hj
          match j with
          | 0 => exact le_of_lt hlt
          | j' + 1 =>
            exact hmin j' (by simpa using Nat.lt_of_succ_lt_succ hj)
        · intro j hj hji
          match j with
          | 0 => exact hlt
          | j' + 1 =>
            exact hfirst j' (by simpa using Nat.lt_of_succ_lt_succ hj)
              (Nat.lt_of_succ_lt_succ hji)
      · refine ⟨0, by simp, ?_, ?_, ?_⟩
        · rw [nearestRow_cons, hres]
          dsimp only
          rw [if_neg hlt]
          rfl
        · intro j hj
          match j with
          | 0 => exact le_refl _
          | j' + 1 =>
            calc |((row :: r0 :: rest0).get ⟨0, by simp⟩).agemos - q|
                ≤ |((r0 :: rest0).get ⟨i, hi⟩).agemos - q| := not_lt.mp hlt
              _ ≤ _ := hmin j' (by simpa using Nat.lt_of_succ_lt_succ hj)
        · intro j hj hji
          omega

/-- Helper: with a present coordinate and a nonempty per-sex table, the
lookup is exactly `nearestRow` on the filtered rows. -/
theorem get_lms_parameters_eq_nearest (c : CDCGrowthCalculator) (metric : GrowthMetric)
    (sex : Sex) (age_months height_cm : Option ℝ) (q : ℝ) (sd : List DataRow)
    (hsd : sd = (c.data metric).filter fun r => r.sex == sex.value)
    (hq : query_coord metric age_months height_cm = some q)
    (hne : sd ≠ []) :
    c.get_lms_parameters metric sex age_months height_cm =
      (nearestRow sd q).map fun row => (row.L, row.M, row.S) := by
  have hdata : (c.data metric) ≠ [] := by
    intro h0
    rw [h0] at hsd
    simp at hsd
    exact hne hsd
  have hdataE : (c.data metric).isEmpty = false := by
    simpa [List.isEmpty_iff] using hdata
  have hsdE : ((c.data metric).filter fun r => r.sex == sex.value).isEmpty = false := by
    rw [← hsd]
    simpa [List.isEmpty_iff] using hne
  cases metric <;>
    simp only [CDCGrowthCalculator.get_lms_parameters, hdataE, hsdE, Bool.false_eq_true,
      if_false, query_coord] at hq ⊢ <;>
    rw [hq, ← hsd]

/-- C2: the LMS-parameter lookup returns not-found when the metric's table is
empty or has no rows for that sex and when weight-for-stature lacks
`height_cm`; otherwise (with the query coordinate `height_cm` for
weight-for-stature and `age_months` for every other metric, via
`query_coord`) it returns the L, M, S of the row whose coordinate has minimum
absolute distance to the query, ties broken by the first-encountered row in
table order, and a query equal to a tabulated coordinate returns a row with
exactly that coordinate (the first such row). -/
theorem c2_lookup_nearest (c : CDCGrowthCalculator) (metric : GrowthMetric) (sex : Sex)
    (age_months height_cm : Option ℝ) (sd : List DataRow)
    (hsd : sd = (c.data metric).filter fun r => r.sex == sex.value) :
    (sd = [] → c.get_lms_parameters metric sex age_months height_cm = none)
    ∧ (metric = GrowthMetric.WEIGHT_FOR_STATURE → height_cm = none →
        c.get_lms_parameters metric sex age_months height_cm = none)
    ∧ (∀ q : ℝ, query_coord metric age_months height_cm = some q → sd ≠ [] →
        ∃ i : ℕ, ∃ hi : i < sd.length,
          c.get_lms_parameters metric sex age_months height_cm =
            some ((sd.get ⟨i, hi⟩).L, (sd.get ⟨i, hi⟩).M, (sd.get ⟨i, hi⟩).S)
          ∧ (∀ j : ℕ, ∀ hj : j < sd.length,
              |(sd.get ⟨i, hi⟩).agemos - q| ≤ |(sd.get ⟨j, hj⟩).agemos - q|)
          ∧ (∀ j : ℕ, ∀ hj : j < sd.length, j < i →
              |(sd.get ⟨i, hi⟩).agemos - q| < |(sd.get ⟨j, hj⟩).agemos - q|)
          ∧ (∀ j : ℕ, ∀ hj : j < sd.length, (sd.get ⟨j, hj⟩).agemos = q →
              (sd.get ⟨i, hi⟩).agemos = q ∧ i ≤ j)) := by
  refine ⟨?_, ?_, ?_⟩
  · intro h0
    unfold CDCGrowthCalculator.get_lms_parameters
    by_cases hd : (c.data metric).isEmpty
    · simp [hd]
    · have : ((c.data metric).filter fun r => r.sex == sex.value).isEmpty = true := by
        rw [← hsd, h0]
        rfl
      simp [hd, this]
  · intro hm hh
    subst hm
    subst hh
    unfold CDCGrowthCalculator.get_lms_parameters
    by_cases hd : (c.data GrowthMetric.WEIGHT_FOR_STATURE).isEmpty
    · simp [hd]
    · by_cases hs : ((c.data GrowthMetric.WEIGHT_FOR_STATURE).filter
          fun r => r.sex == sex.value).isEmpty
      · simp [hd, hs]
      · simp [hd, hs]
  · intro q hq hne
    obtain ⟨i, hi, hres, hmin, hfirst⟩ := nearestRow_spec q sd hne
    refine ⟨i, hi, ?_, hmin, hfirst, ?_⟩
    · rw [get_lms_parameters_eq_nearest c metric sex age_months height_cm q sd hsd hq hne,
        hres]
      rfl
    · intro j hj hjq
      have h0 : |(sd.get ⟨i, hi⟩).agemos - q| ≤ 0 := by
        have := hmin j hj
        rw [hjq] at this
        simpa using this
      have hiq : (sd.get ⟨i, hi⟩).agemos = q := by
        have := abs_nonneg ((sd.get ⟨i, hi⟩).agemos - q)
        have heq : |(sd.get ⟨i, hi⟩).agemos - q| = 0 := le_antisymm h0 this
        have := abs_eq_zero.mp heq
        linarith
      refine ⟨hiq, ?_⟩
      by_contra hji
      have hlt := hfirst j hj (by omega)
      rw [hjq, hiq] at hlt
      simp at hlt

/-- C10: for a nonempty per-sex table and a query coordinate strictly outside
the tabulated range, the lookup succeeds and returns the boundary row's
L, M, S (the row with the largest coordinate when the query is above the
range, the smallest when below). -/
theorem c10_boundary_row (c : CDCGrowthCalculator) (metric : GrowthMetric) (sex : Sex)
    (age_months height_cm : Option ℝ) (q : ℝ) (sd : List DataRow)
    (hsd : sd = (c.data metric).filter fun r => r.sex == sex.value)
    (hq : query_coord metric age_months height_cm = some q)
    (hne : sd ≠ []) :
    ((∀ r ∈ sd, r.agemos < q) →
      ∃ r, r ∈ sd ∧ c.get_lms_parameters metric sex age_months height_cm =
          some (r.L, r.M, r.S) ∧ ∀ r' ∈ sd, r'.agemos ≤ r.agemos)
    ∧ ((∀ r ∈ sd, q < r.agemos) →
      ∃ r, r ∈ sd ∧ c.get_lms_parameters metric sex age_months height_cm =
          some (r.L, r.M, r.S) ∧ ∀ r' ∈ sd, r.agemos ≤ r'.agemos) := by
  obtain ⟨i, hi, hres, hmin, hfirst⟩ := nearestRow_spec q sd hne
  have hgl : c.get_lms_parameters metric sex age_months height_cm =
      some ((sd.get ⟨i, hi⟩).L, (sd.get ⟨i, hi⟩).M, (sd.get ⟨i, hi⟩).S) := by
    rw [get_lms_parameters_eq_nearest c metric sex age_months height_cm q sd hsd hq hne,
      hres]
    rfl
  constructor
  · intro hbelow
    refine ⟨sd.get ⟨i, hi⟩, List.get_mem sd i hi, hgl, ?_⟩
    intro r' hr'
    obtain ⟨⟨j, hj⟩, hjr⟩ := List.mem_iff_get.mp hr'
    have hj1 := hmin j hj
    rw [hjr] at hj1
    have hai : (sd.get ⟨i, hi⟩).agemos < q := hbelow _ (List.get_mem sd i hi)
    have har : r'.agemos < q := hbelow _ hr'
    rw [abs_of_neg (by linarith), abs_of_neg (by linarith)] at hj1
    linarith
  · intro habove
    refine ⟨sd.get ⟨i, hi⟩, List.get_mem sd i hi, hgl, ?_⟩
    intro r' hr'
    obtain ⟨⟨j, hj⟩, hjr⟩ := List.mem_iff_get.mp hr'
    have hj1 := hmin j hj
    rw [hjr] at hj1
    have hai : q < (sd.get ⟨i, hi⟩).agemos := habove _ (List.get_mem sd i hi)
    have har : q < r'.agemos := habove _ hr'
    rw [abs_of_pos (by linarith), abs_of_pos (by linarith)] at hj1
    linarith

/-- Helper: `round2` at 0. -/
theorem round2_zero : round2 (0 : ℝ) = 0 := by
  rw [round2_eq_of_bounds 0 0 (by norm_num) (by norm_num)]
  norm_num

/-- Helper: `round2` at 1. -/
theorem round2_one : round2 (1 : ℝ) = 1 := by
  rw [round2_eq_of_bounds 1 100 (by norm_num) (by norm_num)]
  norm_num

/-- Helper: `round2` at 16. -/
theorem round2_sixteen : round2 (16 : ℝ) = 16 := by
  rw [round2_eq_of_bounds 16 1600 (by norm_num) (by norm_num)]
  norm_num

/-- Helper: `round2` at 50. -/
theorem round2_fifty : round2 (50 : ℝ) = 50 := by
  rw [round2_eq_of_bounds 50 5000 (by norm_num) (by norm_num)]
  norm_num

/-- Helper: `round2` at -1/2. -/
theorem round2_neg_half : round2 (-(1 / 2) : ℝ) = -(1 / 2) := by
  rw [round2_eq_of_bounds (-(1 / 2)) (-50) (by norm_num) (by norm_num)]
  norm_num

/-- Helper: with a valid row (`M > 0`, `S ≠ 0`) and a positive measurement,
the Option-level forward transform is exactly the real-valued formula. -/
theorem lms_z_score_eq (L M S v : ℝ) (hM : 0 < M) (hv : 0 < v) (hS : S ≠ 0) :
    lms_z_score L M S v = some (z_formula L M S v) := by
  have hM0 : M ≠ 0 := ne_of_gt hM
  have hvM : 0 < v / M := div_pos hv hM
  by_cases hL : L = 0
  · subst hL
    unfold lms_z_score z_formula
    rw [if_neg (by simp), if_neg (by simp)]
    simp only [pyDiv, if_neg hM0]
    simp only [pyLog, if_neg (not_le.mpr hvM)]
    simp only [pyDiv, if_neg hS]
  · unfold lms_z_score z_formula
    rw [if_pos hL, if_pos hL]
    simp only [pyDiv, if_neg hM0]
    simp only [pyPow]
    rw [if_neg (by rintro ⟨h1, _⟩; exact absurd h1 (not_lt.mpr (le_of_lt hvM))),
      if_neg (by rintro ⟨h1, _⟩; exact absurd h1 (ne_of_gt hvM))]
    simp only [pyDiv, if_neg (mul_ne_zero hL hS)]

/-- Helper: the full forward calculation when the lookup and the transform
succeed. -/
theorem calc_growth_eq (c : CDCGrowthCalculator) (nd : NormalDist) (metric : GrowthMetric)
    (sex : Sex) (v : ℝ) (age_months height_cm : Option ℝ) (L M S : ℝ)
    (hlms : c.get_lms_parameters metric sex age_months height_cm = some (L, M, S))
    (hM : 0 < M) (hv : 0 < v) (hS : S ≠ 0) :
    c.calculate_growth_percentile nd metric sex v age_months height_cm =
      some ⟨round2 (nd.cdf (z_formula L M S v) * 100), round2 (z_formula L M S v), M,
        metric.value, age_months, height_cm⟩ := by
  unfold CDCGrowthCalculator.calculate_growth_percentile
  rw [hlms]
  dsimp only
  rw [lms_z_score_eq L M S v hM hv hS]

/-- C1: when the lookup finds a row (L, M, S) (with positive median and
nonzero S, as CDC tables guarantee) and the measurement is positive, the
returned result's z-score is the LMS formula rounded to 2 decimals and its
percentile is the cdf of the unrounded z-score, scaled to 0-100 and rounded
to 2 decimals. -/
theorem c1_forward_lms (c : CDCGrowthCalculator) (nd : NormalDist) (metric : GrowthMetric)
    (sex : Sex) (v : ℝ) (age_months height_cm : Option ℝ) (L M S : ℝ)
    (hlms : c.get_lms_parameters metric sex age_months height_cm = some (L, M, S))
    (hM : 0 < M) (hv : 0 < v) (hS : S ≠ 0) :
    c.calculate_growth_percentile nd metric sex v age_months height_cm =
      some ⟨round2 (percentile_real nd (z_formula L M S v)), round2 (z_formula L M S v), M,
        metric.value, age_months, height_cm⟩
    ∧ z_formula L M S v =
        (if L ≠ 0 then ((v / M) ^ L - 1) / (L * S) else Real.log (v / M) / S) := by
  constructor
  · rw [calc_growth_eq c nd metric sex v age_months height_cm L M S hlms hM hv hS]
    rfl
  · rfl

/-- Witness for C1 at a concrete one-row table. -/
theorem c1_forward_lms_witness :
    (cdc0.calculate_growth_percentile nd0 GrowthMetric.WEIGHT_FOR_AGE Sex.MALE 16
        (some 120) none =
      some ⟨round2 (percentile_real nd0 (z_formula 1 16 1 16)), round2 (z_formula 1 16 1 16),
        16, GrowthMetric.WEIGHT_FOR_AGE.value, some 120, none⟩)
    ∧ z_formula 1 16 1 16 =
        (if (1 : ℝ) ≠ 0 then (((16 : ℝ) / 16) ^ (1 : ℝ) - 1) / (1 * 1)
         else Real.log ((16 : ℝ) / 16) / 1) :=
  c1_forward_lms cdc0 nd0 GrowthMetric.WEIGHT_FOR_AGE Sex.MALE 16 (some 120) none 1 16 1
    (by rfl) (by norm_num) (by norm_num) (by norm_num)

/-- Witness for C2: the weight-for-stature lookup with missing height is
not-found. -/
theorem c2_lookup_nearest_witness :
    cdc0.get_lms_parameters GrowthMetric.WEIGHT_FOR_STATURE Sex.MALE (some 60) none = none :=
  (c2_lookup_nearest cdc0 GrowthMetric.WEIGHT_FOR_STATURE Sex.MALE (some 60) none
    ((cdc0.data GrowthMetric.WEIGHT_FOR_STATURE).filter fun r => r.sex == Sex.MALE.value)
    rfl).2.1 rfl rfl

/-- Witness for C10: an age query far above the single tabulated age returns
that boundary row. -/
theorem c10_boundary_row_witness :
    ∃ r, r ∈ [(⟨1, 120, 1, 16, 1⟩ : DataRow)] ∧
      cdc0.get_lms_parameters GrowthMetric.WEIGHT_FOR_AGE Sex.MALE (some 500) none =
        some (r.L, r.M, r.S) ∧
      ∀ r' ∈ [(⟨1, 120, 1, 16, 1⟩ : DataRow)], r'.agemos ≤ r.agemos :=
  (c10_boundary_row cdc0 GrowthMetric.WEIGHT_FOR_AGE Sex.MALE (some 500) none 500
    [⟨1, 120, 1, 16, 1⟩] (by rfl) rfl (by simp)).1
    (by
      intro r hr
      rw [List.mem_singleton] at hr
      subst hr
      norm_num)

/-- C6 counterexample: with a matched row whose M is 16.575, the returned
`reference_value` is 16.575 itself, which is not a 2-decimal-rounded value
(its rounding is 16.58), refuting the claim that `reference_value` is
rounded to 2 decimal places. -/
theorem c6_counterexample :
    cdc6.calculate_growth_percentile nd0 GrowthMetric.WEIGHT_FOR_AGE Sex.MALE 16.575
        (some 60) none =
      some ⟨50, 0, 16.575, "weight_for_age", some 60, none⟩
    ∧ round2 16.575 ≠ 16.575 := by
  constructor
  · rw [calc_growth_eq cdc6 nd0 GrowthMetric.WEIGHT_FOR_AGE Sex.MALE 16.575 (some 60) none
      1 16.575 1 (by rfl) (by norm_num) (by norm_num) (by norm_num)]
    have hz : z_formula 1 16.575 1 16.575 = 0 := by
      unfold z_formula
      rw [if_pos (by norm_num : (1 : ℝ) ≠ 0)]
      rw [div_self (by norm_num : (16.575 : ℝ) ≠ 0), Real.one_rpow]
      norm_num
    rw [hz]
    have h1 : nd0.cdf 0 * 100 = 50 := by
      show (1 / 2 : ℝ) * 100 = 50
      norm_num
    rw [h1, round2_fifty, round2_zero]
    rfl
  · rw [round2_eq_of_bounds 16.575 1658 (by norm_num) (by norm_num)]
    norm_num

/-- C6 amended: every successful result has its z-score rounded to 2
decimals, its percentile computed from the unrounded z-score and then
rounded once, and its `reference_value` equal to the matched row's M,
unrounded. -/
theorem c6_single_rounding (c : CDCGrowthCalculator) (nd : NormalDist)
    (metric : GrowthMetric) (sex : Sex) (v : ℝ) (age_months height_cm : Option ℝ)
    (L M S : ℝ) (r : GrowthResult)
    (hlms : c.get_lms_parameters metric sex age_months height_cm = some (L, M, S))
    (hM : 0 < M) (hv : 0 < v) (hS : S ≠ 0)
    (hr : c.calculate_growth_percentile nd metric sex v age_months height_cm = some r) :
    r.z_score = round2 (z_formula L M S v)
    ∧ r.percentile = round2 (nd.cdf (z_formula L M S v) * 100)
    ∧ r.reference_value = M := by
  rw [calc_growth_eq c nd metric sex v age_months height_cm L M S hlms hM hv hS] at hr
  injection hr with h
  rw [← h]
  exact ⟨rfl, rfl, rfl⟩

/-- Witness for the amended C6 at a concrete one-row table. -/
theorem c6_single_rounding_witness :
    (⟨50, 0, 16, "weight_for_age", some 120, none⟩ : GrowthResult).z_score =
      round2 (z_formula 1 16 1 16)
    ∧ (⟨50, 0, 16, "weight_for_age", some 120, none⟩ : GrowthResult).percentile =
      round2 (nd0.cdf (z_formula 1 16 1 16) * 100)
    ∧ (⟨50, 0, 16, "weight_for_age", some 120, none⟩ : GrowthResult).reference_value = 16 := by
  have hz : z_formula 1 16 1 16 = 0 := by
    unfold z_formula
    rw [if_pos (by norm_num : (1 : ℝ) ≠ 0)]
    rw [div_self (by norm_num : (16 : ℝ) ≠ 0), Real.one_rpow]
    norm_num
  refine c6_single_rounding cdc0 nd0 GrowthMetric.WEIGHT_FOR_AGE Sex.MALE 16 (some 120) none
    1 16 1 ⟨50, 0, 16, "weight_for_age", some 120, none⟩ (by rfl) (by norm_num) (by norm_num)
    (by norm_num) ?_
  rw [calc_growth_eq cdc0 nd0 GrowthMetric.WEIGHT_FOR_AGE Sex.MALE 16 (some 120) none
    1 16 1 (by rfl) (by norm_num) (by norm_num) (by norm_num)]
  rw [hz]
  have h1 : nd0.cdf 0 * 100 = 50 := by
    show (1 / 2 : ℝ) * 100 = 50
    norm_num
  rw [h1, round2_fifty, round2_zero]
  rfl

/-- C7 counterexample: with a matched row L=2, M=16, S=1 and measured value
0, Python computes `(0/16) ** 2 = 0.0` without raising, so the call returns
a GrowthResult carrying the numeric z-score (0-1)/2 = -1/2, refuting the
claim that every value ≤ 0 fails with a domain error. -/
theorem c7_counterexample :
    cdc7.calculate_growth_percentile nd0 GrowthMetric.WEIGHT_FOR_AGE Sex.MALE 0
        (some 60) none =
      some ⟨50, -(1 / 2), 16, "weight_for_age", some 60, none⟩ := by
  have hlms : cdc7.get_lms_parameters GrowthMetric.WEIGHT_FOR_AGE Sex.MALE (some 60) none =
      some (2, 16, 1) := rfl
  unfold CDCGrowthCalculator.calculate_growth_percentile
  rw [hlms]
  dsimp only
  have hz : lms_z_score 2 16 1 0 = some (-(1 / 2)) := by
    unfold lms_z_score
    rw [if_pos (by norm_num : (2 : ℝ) ≠ 0)]
    simp only [pyDiv, if_neg (by norm_num : ¬(16 : ℝ) = 0)]
    rw [show (0 : ℝ) / 16 = 0 by norm_num]
    simp only [pyPow]
    rw [if_neg (by rintro ⟨h1, _⟩; exact absurd h1 (lt_irrefl 0)),
      if_neg (by rintro ⟨_, h2⟩; exact absurd h2 (by norm_num)),
      Real.zero_rpow (by norm_num : (2 : ℝ) ≠ 0)]
    simp only [pyDiv, if_neg (by norm_num : ¬(2 * 1 : ℝ) = 0)]
    norm_num
  rw [hz]
  dsimp only
  have h1 : nd0.cdf (-(1 / 2)) * 100 = 50 := by
    show (1 / 2 : ℝ) * 100 = 50
    norm_num
  rw [h1, round2_fifty, round2_neg_half]
  rfl

/-- C7 amended: the forward computation fails when M = 0 (division), when
L = 0 and the log argument is nonpositive, when the ratio is negative and
the Box-Cox power L is non-integral (complex power), and when the value is 0
with L negative; but a zero value with positive L produces a numeric
GrowthResult with z-score (0-1)/(L·S), so nonpositive measurements are not
uniformly rejected and the caller must screen them. -/
theorem c7_domain (c : CDCGrowthCalculator) (nd : NormalDist) (metric : GrowthMetric)
    (sex : Sex) (v : ℝ) (age_months height_cm : Option ℝ) (L M S : ℝ)
    (hlms : c.get_lms_parameters metric sex age_months height_cm = some (L, M, S)) :
    (L = 0 → 0 < M → v ≤ 0 →
      c.calculate_growth_percentile nd metric sex v age_months height_cm = none)
    ∧ (M = 0 → c.calculate_growth_percentile nd metric sex v age_months height_cm = none)
    ∧ (L ≠ 0 → v / M < 0 → Int.fract L ≠ 0 →
      c.calculate_growth_percentile nd metric sex v age_months height_cm = none)
    ∧ (L ≠ 0 → M ≠ 0 → v = 0 → L < 0 →
      c.calculate_growth_percentile nd metric sex v age_months height_cm = none)
    ∧ (0 < L → M ≠ 0 → v = 0 → S ≠ 0 →
      c.calculate_growth_percentile nd metric sex v age_months height_cm =
        some ⟨round2 (nd.cdf ((0 - 1) / (L * S)) * 100), round2 ((0 - 1) / (L * S)), M,
          metric.value, age_months, height_cm⟩) := by
  unfold CDCGrowthCalculator.calculate_growth_percentile
  rw [hlms]
  dsimp only
  refine ⟨?_, ?_, ?_, ?_, ?_⟩
  · intro hL hM hv
    subst hL
    have hz : lms_z_score 0 M S v = none := by
      unfold lms_z_score
      rw [if_neg (by simp)]
      simp only [pyDiv, if_neg (ne_of_gt hM)]
      simp only [pyLog, if_pos (div_nonpos_of_nonpos_of_nonneg hv (le_of_lt hM))]
    rw [hz]
  · intro hM
    subst hM
    have hz : lms_z_score L 0 S v = none := by
      unfold lms_z_score
      by_cases hL : L = 0
      · subst hL
        rw [if_neg (by simp)]
        simp [pyDiv]
      · rw [if_pos hL]
        simp [pyDiv]
    rw [hz]
  · intro hL hvM hfr
    have hM0 : M ≠ 0 := by
      intro h0
      rw [h0, div_zero] at hvM
      exact absurd hvM (lt_irrefl 0)
    have hz : lms_z_score L M S v = none := by
      unfold lms_z_score
      rw [if_pos hL]
      simp only [pyDiv, if_neg hM0]
      simp only [pyPow, if_pos (And.intro hvM hfr)]
    rw [hz]
  · intro hL hM0 hv hLneg
    subst hv
    have hz : lms_z_score L M S 0 = none := by
      unfold lms_z_score
      rw [if_pos hL]
      simp only [pyDiv, if_neg hM0]
      rw [show (0 : ℝ) / M = 0 by simp]
      simp only [pyPow]
      rw [if_neg (by rintro ⟨h1, _⟩; exact absurd h1 (lt_irrefl 0)),
        if_pos (show True ∧ L < 0 from ⟨trivial, hLneg⟩)]
    rw [hz]
  · intro hL hM0 hv hS
    subst hv
    have hLS : L * S ≠ 0 := mul_ne_zero (ne_of_gt hL) hS
    have hz : lms_z_score L M S 0 = some ((0 - 1) / (L * S)) := by
      unfold lms_z_score
      rw [if_pos (ne_of_gt hL)]
      simp only [pyDiv, if_neg hM0]
      rw [show (0 : ℝ) / M = 0 by simp]
      simp only [pyPow]
      rw [if_neg (by rintro ⟨h1, _⟩; exact absurd h1 (lt_irrefl 0)),
        if_neg (by rintro ⟨_, h2⟩; exact absurd h2 (not_lt.mpr (le_of_lt hL))),
        Real.zero_rpow (ne_of_gt hL)]
      simp only [pyDiv, if_neg hLS]
    rw [hz]

/-- Witness for the amended C7: a zero measurement against an L=0 row fails. -/
theorem c7_domain_witness :
    cdc8.calculate_growth_percentile nd0 GrowthMetric.WEIGHT_FOR_AGE Sex.MALE 0
        (some 60) none = none :=
  (c7_domain cdc8 nd0 GrowthMetric.WEIGHT_FOR_AGE Sex.MALE 0 (some 60) none 0 16 1
    (by rfl)).1 rfl (by norm_num) (by norm_num)

/-- C8 counterexample: requesting percentile 150 (outside (0,100)) against
an L=0 row does not fail: the code has no range check, `norm.ppf` never
raises (it returns nan outside [0,1], a numeric float the code propagates;
the total stand-in ppf models this), and the L=0 branch unconditionally
returns a number, here 16. -/
theorem c8_counterexample :
    cdc8.calculate_value_for_percentile nd0 GrowthMetric.WEIGHT_FOR_AGE Sex.MALE 150
        (some 60) none = some 16 := by
  have hlms : cdc8.get_lms_parameters GrowthMetric.WEIGHT_FOR_AGE Sex.MALE (some 60) none =
      some (0, 16, 1) := rfl
  unfold CDCGrowthCalculator.calculate_value_for_percentile
  rw [hlms]
  dsimp only
  rw [if_neg (by simp)]
  have h0 : nd0.ppf (150 / 100) = 0 := rfl
  rw [h0, show (1 : ℝ) * 0 = 0 by norm_num, Real.exp_zero,
    show (16 : ℝ) * 1 = 16 by norm_num, round2_sixteen]

/-- C8 amended: `calculate_value_for_percentile` performs no range check on
the percentile.  Once a row is matched, the outcome is fully determined by
the power's base `b = L·S·ppf(p/100) + 1`: an L=0 row always returns a
numeric value, whatever the percentile; for L ≠ 0, a positive base returns
`round2(M·b^(1/L))`, a negative base with integral 1/L also returns that
numeric value, a zero base with positive 1/L returns the numeric value 0,
and the call fails exactly in the two remaining cases: a negative base with
non-integral 1/L (complex power) and a zero base with negative 1/L. -/
theorem c8_inverse_domain (c : CDCGrowthCalculator) (nd : NormalDist) (metric : GrowthMetric)
    (sex : Sex) (p : ℝ) (age_months height_cm : Option ℝ) (L M S : ℝ)
    (hlms : c.get_lms_parameters metric sex age_months height_cm = some (L, M, S)) :
    (L = 0 → c.calculate_value_for_percentile nd metric sex p age_months height_cm =
      some (round2 (M * Real.exp (S * nd.ppf (p / 100)))))
    ∧ (L ≠ 0 → L * S * nd.ppf (p / 100) + 1 < 0 → Int.fract (1 / L) ≠ 0 →
      c.calculate_value_for_percentile nd metric sex p age_months height_cm = none)
    ∧ (L ≠ 0 → L * S * nd.ppf (p / 100) + 1 = 0 → 1 / L < 0 →
      c.calculate_value_for_percentile nd metric sex p age_months height_cm = none)
    ∧ (L ≠ 0 → L * S * nd.ppf (p / 100) + 1 = 0 → 0 < 1 / L →
      c.calculate_value_for_percentile nd metric sex p age_months height_cm = some 0)
    ∧ (L ≠ 0 → 0 < L * S * nd.ppf (p / 100) + 1 →
      c.calculate_value_for_percentile nd metric sex p age_months height_cm =
        some (round2 (M * (L * S * nd.ppf (p / 100) + 1) ^ (1 / L))))
    ∧ (L ≠ 0 → L * S * nd.ppf (p / 100) + 1 < 0 → Int.fract (1 / L) = 0 →
      c.calculate_value_for_percentile nd metric sex p age_months height_cm =
        some (round2 (M * (L * S * nd.ppf (p / 100) + 1) ^ (1 / L)))) := by
  unfold CDCGrowthCalculator.calculate_value_for_percentile
  rw [hlms]
  dsimp only
  refine ⟨?_, ?_, ?_, ?_, ?_, ?_⟩
  · intro hL
    subst hL
    rw [if_neg (by simp)]
  · intro hL hbase hfr
    rw [if_pos hL]
    simp only [pyPow, if_pos (And.intro hbase hfr)]
  · intro hL hbase hinv
    rw [if_pos hL]
    simp only [pyPow]
    rw [if_neg (by rintro ⟨h1, _⟩; rw [hbase] at h1; exact absurd h1 (lt_irrefl 0)),
      if_pos (And.intro hbase hinv)]
  · intro hL hbase hinv
    rw [if_pos hL]
    simp only [pyPow]
    rw [if_neg (by rintro ⟨h1, _⟩; rw [hbase] at h1; exact absurd h1 (lt_irrefl 0)),
      if_neg (by rintro ⟨_, h2⟩; exact absurd h2 (not_lt.mpr (le_of_lt hinv))),
      hbase, Real.zero_rpow (ne_of_gt hinv)]
    dsimp only
    rw [show M * (0 : ℝ) = 0 by ring, round2_zero]
  · intro hL hb
    rw [if_pos hL]
    simp only [pyPow]
    rw [if_neg (by rintro ⟨h1, _⟩; exact absurd h1 (not_lt.mpr (le_of_lt hb))),
      if_neg (by rintro ⟨h1, _⟩; exact absurd h1 (ne_of_gt hb))]
  · intro hL hb hfr
    rw [if_pos hL]
    simp only [pyPow]
    rw [if_neg (by rintro ⟨_, h2⟩; exact h2 hfr),
      if_neg (by rintro ⟨h1, _⟩; rw [h1] at hb; exact absurd hb (lt_irrefl 0))]

/-- Witness for the amended C8: a negative base with non-integral exponent
makes the inverse fail. -/
theorem c8_inverse_domain_witness :
    cdc7.calculate_value_for_percentile ndNeg GrowthMetric.WEIGHT_FOR_AGE Sex.MALE 30
        (some 60) none = none :=
  (c8_inverse_domain cdc7 ndNeg GrowthMetric.WEIGHT_FOR_AGE Sex.MALE 30 (some 60) none
    2 16 1 (by rfl)).2.1 (by norm_num)
    (by
      show (2 : ℝ) * 1 * ndNeg.ppf (30 / 100) + 1 < 0
      have h3 : ndNeg.ppf (30 / 100) = -3 := rfl
      rw [h3]
      norm_num)
    (by
      rw [show Int.fract (1 / (2 : ℝ)) = 1 / 2 by
        rw [Int.fract, show ⌊(1 / (2 : ℝ))⌋ = 0 from Int.floor_eq_iff.mpr (by norm_num)]
        norm_num]
      norm_num)

/-- C4: the round-trip law through the code pipeline.
`calculate_growth_percentile` produces the rounded percentile
`round2(cdf z * 100)`.  Feeding exactly that percentile back into
`calculate_value_for_percentile` returns `round2 (v * f ^ (1/L))`, where the
factor `f = (L*S*z2 + 1)/(L*S*z + 1)` (with `z2` the ppf of the rounded
percentile over 100) is precisely the multiplicative perturbation induced by
the 2-decimal rounding of the percentile propagated through ppf; when that
perturbation vanishes (`z2 = z`, e.g. when the scaled cdf value already lies
on the 2-decimal grid) the composition returns exactly `round2 v`, the
original value within the final 2-decimal rounding.  The unrounded pipeline
inverts exactly.  The hypotheses are the claim's validity conditions: the
inverse must stay real-valued (positive base) at the exact and at the
rounded percentile, and ppf must invert cdf at z (true of the standard
normal on (0,1)). -/
theorem c4_round_trip (c : CDCGrowthCalculator) (nd : NormalDist) (metric : GrowthMetric)
    (sex : Sex) (age_months height_cm : Option ℝ) (L M S v : ℝ)
    (hlms : c.get_lms_parameters metric sex age_months height_cm = some (L, M, S))
    (hL : L ≠ 0) (hM : 0 < M) (hS : 0 < S) (hv : 0 < v)
    (hnd : nd.ppf (nd.cdf (z_formula L M S v)) = z_formula L M S v)
    (hopen : 0 < L * S * z_formula L M S v + 1)
    (hopen2 :
      0 < L * S * nd.ppf (round2 (percentile_real nd (z_formula L M S v)) / 100) + 1) :
    ∃ r, c.calculate_growth_percentile nd metric sex v age_months height_cm = some r
      ∧ r.percentile = round2 (percentile_real nd (z_formula L M S v))
      ∧ c.calculate_value_for_percentile nd metric sex r.percentile age_months height_cm =
          some (round2 (v * ((L * S * nd.ppf (r.percentile / 100) + 1) /
            (L * S * z_formula L M S v + 1)) ^ (1 / L)))
      ∧ (nd.ppf (r.percentile / 100) = z_formula L M S v →
          c.calculate_value_for_percentile nd metric sex r.percentile age_months height_cm =
            some (round2 v))
      ∧ value_from_percentile_real nd L M S (percentile_real nd (z_formula L M S v)) = v := by
  have hvM : 0 < v / M := div_pos hv hM
  have hLS : L * S ≠ 0 := mul_ne_zero hL (ne_of_gt hS)
  have hp100 : percentile_real nd (z_formula L M S v) / 100 = nd.cdf (z_formula L M S v) := by
    unfold percentile_real
    field_simp
  have hkey : L * S * z_formula L M S v + 1 = (v / M) ^ L := by
    unfold z_formula
    rw [if_pos hL]
    field_simp
  have hu : 0 < (v / M) ^ L := Real.rpow_pos_of_pos hvM L
  have hroot : ((v / M) ^ L) ^ (1 / L) = v / M := by
    rw [← Real.rpow_mul (le_of_lt hvM), mul_one_div_cancel hL, Real.rpow_one]
  have hfin : M * (v / M) = v := by
    field_simp
  set z2 := nd.ppf (round2 (percentile_real nd (z_formula L M S v)) / 100) with hz2
  have hb : 0 < L * S * z2 + 1 := hopen2
  have halg : M * (L * S * z2 + 1) ^ (1 / L) =
      v * ((L * S * z2 + 1) / (L * S * z_formula L M S v + 1)) ^ (1 / L) := by
    rw [hkey]
    have hcan : (v / M) ^ L * ((L * S * z2 + 1) / (v / M) ^ L) = L * S * z2 + 1 := by
      field_simp
    calc M * (L * S * z2 + 1) ^ (1 / L)
        = M * ((v / M) ^ L * ((L * S * z2 + 1) / (v / M) ^ L)) ^ (1 / L) := by rw [hcan]
      _ = M * (((v / M) ^ L) ^ (1 / L) * ((L * S * z2 + 1) / (v / M) ^ L) ^ (1 / L)) := by
          rw [Real.mul_rpow (le_of_lt hu) (le_of_lt (div_pos hb hu))]
      _ = v * ((L * S * z2 + 1) / (v / M) ^ L) ^ (1 / L) := by
          rw [hroot, ← mul_assoc, hfin]
  have hcomp : c.calculate_value_for_percentile nd metric sex
      (round2 (percentile_real nd (z_formula L M S v))) age_months height_cm =
      some (round2 (v * ((L * S * z2 + 1) /
        (L * S * z_formula L M S v + 1)) ^ (1 / L))) := by
    unfold CDCGrowthCalculator.calculate_value_for_percentile
    rw [hlms]
    dsimp only
    rw [if_pos hL]
    rw [← hz2]
    simp only [pyPow]
    rw [if_neg (by rintro ⟨h1, _⟩; exact absurd h1 (not_lt.mpr (le_of_lt hb))),
      if_neg (by rintro ⟨h1, _⟩; exact absurd h1 (ne_of_gt hb))]
    dsimp only
    rw [halg]
  refine ⟨⟨round2 (percentile_real nd (z_formula L M S v)), round2 (z_formula L M S v), M,
    metric.value, age_months, height_cm⟩, ?_, rfl, hcomp, ?_, ?_⟩
  · exact calc_growth_eq c nd metric sex v age_months height_cm L M S hlms hM hv
      (ne_of_gt hS)
  · intro hz3
    have hz4 : z2 = z_formula L M S v := hz3
    dsimp only
    rw [hcomp, hz4, div_self (ne_of_gt hopen), Real.one_rpow, mul_one]
  · unfold value_from_percentile_real
    rw [if_pos hL, hp100, hnd, hkey, hroot, hfin]

/-- Witness for C4 at a concrete row with L=1, M=16, S=1, value 16 (z = 0,
percentile 50, already on the 2-decimal grid; the stand-in has cdf 0 = 1/2
and ppf of everything 0, so ppf inverts cdf at this z just as the true
normal does, and the rounding-induced perturbation vanishes). -/
theorem c4_round_trip_witness :
    ∃ r, cdc0.calculate_growth_percentile nd0 GrowthMetric.WEIGHT_FOR_AGE Sex.MALE 16
        (some 120) none = some r
      ∧ r.percentile = round2 (percentile_real nd0 (z_formula 1 16 1 16))
      ∧ cdc0.calculate_value_for_percentile nd0 GrowthMetric.WEIGHT_FOR_AGE Sex.MALE
          r.percentile (some 120) none =
          some (round2 (16 * ((1 * 1 * nd0.ppf (r.percentile / 100) + 1) /
            (1 * 1 * z_formula 1 16 1 16 + 1)) ^ ((1 : ℝ) / 1)))
      ∧ (nd0.ppf (r.percentile / 100) = z_formula 1 16 1 16 →
          cdc0.calculate_value_for_percentile nd0 GrowthMetric.WEIGHT_FOR_AGE Sex.MALE
            r.percentile (some 120) none = some (round2 16))
      ∧ value_from_percentile_real nd0 1 16 1 (percentile_real nd0 (z_formula 1 16 1 16)) =
          16 := by
  have hz : z_formula 1 16 1 16 = 0 := by
    unfold z_formula
    rw [if_pos (by norm_num : (1 : ℝ) ≠ 0)]
    rw [div_self (by norm_num : (16 : ℝ) ≠ 0), Real.one_rpow]
    norm_num
  refine c4_round_trip cdc0 nd0 GrowthMetric.WEIGHT_FOR_AGE Sex.MALE (some 120) none
    1 16 1 16 (by rfl) (by norm_num) (by norm_num) (by norm_num) (by norm_num) ?_ ?_ ?_
  · rw [hz]
    rfl
  · rw [hz]
    norm_num
  · show (0 : ℝ) <
      1 * 1 * nd0.ppf (round2 (percentile_real nd0 (z_formula 1 16 1 16)) / 100) + 1
    have h0 : nd0.ppf (round2 (percentile_real nd0 (z_formula 1 16 1 16)) / 100) = 0 := rfl
    rw [h0]
    norm_num

/-- Helper: every successful WHO-path result carries `standard = "WHO"`. -/
theorem who_z_standard (mgc : MedicalGrowthCalculator) (nd : NormalDist)
    (measurement_type : String) (value age_months : ℝ) (sex : String)
    (height_cm : Option ℝ) (r : ZScoreResult)
    (hr : mgc.calculate_who_z_score nd measurement_type value age_months sex height_cm =
      some r) : r.standard = "WHO" := by
  unfold MedicalGrowthCalculator.calculate_who_z_score at hr
  dsimp only at hr
  split at hr
  · exact absurd hr (by simp)
  · injection hr with h
    rw [← h]

/-- Helper: every successful CDC-path result carries `standard = "CDC"`. -/
theorem cdc_z_standard (mgc : MedicalGrowthCalculator) (nd : NormalDist)
    (measurement_type : String) (value age_months : ℝ) (sex : String)
    (height_cm : Option ℝ) (r : ZScoreResult)
    (hr : mgc.calculate_cdc_z_score nd measurement_type value age_months sex height_cm =
      some r) : r.standard = "CDC" := by
  unfold MedicalGrowthCalculator.calculate_cdc_z_score at hr
  dsimp only at hr
  split at hr
  · exact absurd hr (by simp)
  split at hr
  · exact absurd hr (by simp)
  split at hr
  · exact absurd hr (by simp)
  · injection hr with h
    rw [← h]

/-- C3: once validation passes, requests with age below 60 months and the
WHO standard available are computed by the WHO path (whose results carry
`standard = "WHO"`); otherwise, if the CDC standard is available, by the CDC
path (results carry `standard = "CDC"`); and with neither available the call
fails.  Age exactly 60 falsifies `age_months < 60`, so with both standards
available it routes to CDC (the witness instantiates this). -/
theorem c3_standard_selection (mgc : MedicalGrowthCalculator) (nd : NormalDist)
    (measurement_type : String) (value age_months : ℝ) (sex : SexInput)
    (height_cm : Option ℝ) (sex_normalized : String)
    (hsex : normalize_sex_input sex = some sex_normalized)
    (hage : ¬ age_months < 0) (hval : ¬ value ≤ 0) :
    ((age_months < 60 ∧ mgc.pygrowup_available = true) →
      mgc.calculate_z_score nd measurement_type value age_months sex height_cm =
        mgc.calculate_who_z_score nd measurement_type value age_months sex_normalized
          height_cm
      ∧ ∀ r, mgc.calculate_who_z_score nd measurement_type value age_months sex_normalized
          height_cm = some r → r.standard = "WHO")
    ∧ (¬ (age_months < 60 ∧ mgc.pygrowup_available = true) → mgc.cdc_available = true →
      mgc.calculate_z_score nd measurement_type value age_months sex height_cm =
        mgc.calculate_cdc_z_score nd measurement_type value age_months sex_normalized
          height_cm
      ∧ ∀ r, mgc.calculate_cdc_z_score nd measurement_type value age_months sex_normalized
          height_cm = some r → r.standard = "CDC")
    ∧ (¬ (age_months < 60 ∧ mgc.pygrowup_available = true) → mgc.cdc_available = false →
      mgc.calculate_z_score nd measurement_type value age_months sex height_cm = none) := by
  unfold MedicalGrowthCalculator.calculate_z_score
  rw [hsex]
  dsimp only
  rw [if_neg hage, if_neg hval]
  refine ⟨?_, ?_, ?_⟩
  · intro hwho
    rw [if_pos hwho]
    exact ⟨rfl, fun r hr =>
      who_z_standard mgc nd measurement_type value age_months sex_normalized height_cm r hr⟩
  · intro hwho hcdc
    rw [if_neg hwho, if_pos hcdc]
    exact ⟨rfl, fun r hr =>
      cdc_z_standard mgc nd measurement_type value age_months sex_normalized height_cm r hr⟩
  · intro hwho hcdc
    rw [if_neg hwho, if_neg (by simp [hcdc])]

/-- Witness for C3: age exactly 60 months with both standards available is
computed by the CDC path. -/
theorem c3_standard_selection_witness :
    mgc0.calculate_z_score nd0 "weight_for_age" 16 60 (SexInput.str "male") none =
      mgc0.calculate_cdc_z_score nd0 "weight_for_age" 16 60 "male" none
    ∧ ∀ r, mgc0.calculate_cdc_z_score nd0 "weight_for_age" 16 60 "male" none = some r →
        r.standard = "CDC" :=
  (c3_standard_selection mgc0 nd0 "weight_for_age" 16 60 (SexInput.str "male") none "male"
    (by decide) (by norm_num) (by norm_num)).2.1
    (by
      rintro ⟨h60, _⟩
      exact absurd h60 (by norm_num))
    rfl

/-- Helper: no string is both a male and a female variant. -/
theorem variants_disjoint (x : String) (hm : x ∈ male_variants)
    (hf : x ∈ female_variants) : False := by
  simp only [male_variants, List.mem_cons, List.not_mem_nil, or_false] at hm
  simp only [female_variants, List.mem_cons, List.not_mem_nil, or_false] at hf
  rcases hm with h | h | h | h | h <;> subst h <;> revert hf <;> decide

/-- C5: any request whose sex does not normalize, or with negative age, or
with nonpositive value, returns a failure for every calculator state and
every oracle (hence nothing is delegated); sex normalization recognizes
exactly the listed case-insensitive variants (after stripping), maps them to
"male"/"female", fails on everything else (never a silent default), and a
tuple input uses its first truthy element with nonempty strip. -/
theorem c5_validation (mgc : MedicalGrowthCalculator) (nd : NormalDist)
    (measurement_type : String) (value age_months : ℝ) (sex : SexInput)
    (height_cm : Option ℝ) :
    ((normalize_sex_input sex = none ∨ age_months < 0 ∨ value ≤ 0) →
      mgc.calculate_z_score nd measurement_type value age_months sex height_cm = none)
    ∧ (∀ s : String, normalize_sex_input (SexInput.str s) = none ↔
        (pyLower (pyStrip s) ∉ male_variants ∧ pyLower (pyStrip s) ∉ female_variants))
    ∧ (∀ s : String, pyLower (pyStrip s) ∈ male_variants →
        normalize_sex_input (SexInput.str s) = some "male")
    ∧ (∀ s : String, pyLower (pyStrip s) ∈ female_variants →
        normalize_sex_input (SexInput.str s) = some "female")
    ∧ (∀ items : List String, normalize_sex_input (SexInput.tup items) =
        match items.find? (fun item => !item.isEmpty && !(pyStrip item).isEmpty) with
        | none => none
        | some item => match_sex_str (pyStrip item)) := by
  refine ⟨?_, ?_, ?_, ?_, fun items => rfl⟩
  · intro hbad
    unfold MedicalGrowthCalculator.calculate_z_score
    rcases hbad with h | h | h
    · rw [h]
    · cases hns : normalize_sex_input sex
      · rfl
      · dsimp only
        rw [if_pos h]
    · cases hns : normalize_sex_input sex
      · rfl
      · dsimp only
        by_cases hage : age_months < 0
        · rw [if_pos hage]
        · rw [if_neg hage, if_pos h]
  · intro s
    unfold normalize_sex_input match_sex_str
    dsimp only
    constructor
    · intro h
      by_cases hm : pyLower (pyStrip s) ∈ male_variants
      · rw [if_pos hm] at h
        cases h
      · by_cases hf : pyLower (pyStrip s) ∈ female_variants
        · rw [if_neg hm, if_pos hf] at h
          cases h
        · exact ⟨hm, hf⟩
    · rintro ⟨hm, hf⟩
      rw [if_neg hm, if_neg hf]
  · intro s hm
    unfold normalize_sex_input match_sex_str
    dsimp only
    rw [if_pos hm]
  · intro s hf
    unfold normalize_sex_input match_sex_str
    dsimp only
    rw [if_neg (fun hm => variants_disjoint (pyLower (pyStrip s)) hm hf), if_pos hf]

/-- Witness for C5: the string "unknown" does not normalize and the call
fails. -/
theorem c5_validation_witness :
    mgc0.calculate_z_score nd0 "weight_for_age" 16 60 (SexInput.str "unknown") none = none :=
  (c5_validation mgc0 nd0 "weight_for_age" 16 60 (SexInput.str "unknown") none).1
    (Or.inl (by decide))

/-- C9: the embedded `calculate_z_score`, faithful to the source signature,
takes no standard selector: whenever age is below 60 and the WHO standard is
available, every successful result carries `standard = "WHO"`, for every
caller — there is no way to force the CDC standard.  (The `GrowthStandard`
enum with AUTO/WHO/CDC exists in the source but is never consulted; the
repository's own examples pass `standard=GrowthStandard.CDC` to a method
that does not accept it.) -/
theorem c9_no_standard_param (mgc : MedicalGrowthCalculator) (nd : NormalDist)
    (measurement_type : String) (value age_months : ℝ) (sex : SexInput)
    (height_cm : Option ℝ)
    (hage : age_months < 60) (hwho : mgc.pygrowup_available = true) :
    ∀ r, mgc.calculate_z_score nd measurement_type value age_months sex height_cm = some r →
      r.standard = "WHO" := by
  intro r hr
  unfold MedicalGrowthCalculator.calculate_z_score at hr
  cases hns : normalize_sex_input sex with
  | none =>
    rw [hns] at hr
    cases hr
  | some sn =>
    rw [hns] at hr
    dsimp only at hr
    by_cases ha : age_months < 0
    · rw [if_pos ha] at hr
      cases hr
    · rw [if_neg ha] at hr
      by_cases hv : value ≤ 0
      · rw [if_pos hv] at hr
        cases hr
      · rw [if_neg hv, if_pos (And.intro hage hwho)] at hr
        exact who_z_standard mgc nd measurement_type value age_months sn height_cm r hr

/-- Witness for C9: a concrete under-60 call with both standards available
produces a WHO-stamped result. -/
theorem c9_no_standard_param_witness :
    (⟨"weight_for_age", 1, 50, 10, 36, "male", "WHO"⟩ : ZScoreResult).standard = "WHO" :=
  c9_no_standard_param mgc0 nd0 "weight_for_age" 10 36 (SexInput.str "male") none
    (by norm_num) rfl
    ⟨"weight_for_age", 1, 50, 10, 36, "male", "WHO"⟩
    (by
      unfold MedicalGrowthCalculator.calculate_z_score
      rw [show normalize_sex_input (SexInput.str "male") = some "male" by decide]
      dsimp only
      rw [if_neg (by norm_num : ¬(36 : ℝ) < 0), if_neg (by norm_num : ¬(10 : ℝ) ≤ 0),
        if_pos (And.intro (by norm_num : (36 : ℝ) < 60)
          (show mgc0.pygrowup_available = true from rfl))]
      have h1 : mgc0.calculate_who_z_score nd0 "weight_for_age" 10 36 "male" none =
          some ⟨"weight_for_age", round2 1, round2 (nd0.cdf 1 * 100), 10, 36, "male",
            "WHO"⟩ := rfl
      rw [h1, round2_one, show nd0.cdf 1 * 100 = 50 from by
        show (1 / 2 : ℝ) * 100 = 50
        norm_num, round2_fifty])
